import Mathlib

/-!
Verification development for the rebang bang-suggestion dropdown.

The definitions below are a shallow embedding of the dropdown component
(src/src/components/BangDropdown.ts) and of the bang-selection handler of the
search form (SearchForm.handleBangSelection).  DOM effects are modelled by the
content placed in the dropdown container; event listeners are modelled by
attachment flags consulted by dispatch functions; the two timers the component
schedules are modelled by explicit action functions on the state.  Parts of the
repository that the dropdown calls but whose sources are not available
(the match engine filterAndSortBangs, the BangSuggestionManager wiring) are
modelled from the specification and are marked as such in their doc comments.
-/

namespace Rebang

/-- A bang catalog entry.  Field names follow the code (bang.t is the trigger
used by selectTopOption and selectCurrent); s is the service name, u the url
template and w the popularity weight described by the spec's BangDefinition. -/
structure BangItem where
  t : String
  s : String
  u : String
  w : Nat
deriving Repr, DecidableEq

/-- Content rendered inside the dropdown container element: nothing yet, a
text message (showMessage), or the list of rendered candidate items. -/
inductive ContainerContent where
  | empty : ContainerContent
  | message (text : String) : ContainerContent
  | items (list : List BangItem) : ContainerContent
deriving Repr, DecidableEq

/-- State of a BangDropdown instance: the fields of the class plus attachment
flags for the three listeners the constructor may register.  maxItems and
onSelectBangSet record the options the instance was constructed with
(options.maxItems, and whether options.onSelectBang is set). -/
structure DropdownState where
  container : Option ContainerContent
  isVisible : Bool
  selectedIndex : Int
  filteredBangs : List BangItem
  docClickAttached : Bool
  tabKeyAttached : Bool
  resizeAttached : Bool
  maxItems : Nat
  onSelectBangSet : Bool
deriving Repr, DecidableEq

/-- State established by the BangDropdown constructor: no container, not
visible, no selection, no candidates; the document click and input keydown
listeners are attached, the resize listener only when the options ask for
fixed positioning with an appendTo target. -/
def init (resize : Bool) (maxItems : Nat) (onSel : Bool) : DropdownState :=
  { container := none
    isVisible := false
    selectedIndex := -1
    filteredBangs := []
    docClickAttached := true
    tabKeyAttached := true
    resizeAttached := resize
    maxItems := maxItems
    onSelectBangSet := onSel }

/-- Embedding of BangDropdown.hide: when a container exists it is removed from
the DOM and the state variables are reset; otherwise nothing happens.  The
zero-delay finalisation timer it schedules is modelled by hideFinalizeTimer. -/
def hide (s : DropdownState) : DropdownState :=
  match s.container with
  | some _ => { s with container := none, isVisible := false, selectedIndex := -1 }
  | none => s

/-- Action of the zero-delay timer scheduled at the end of hide: it removes the
container from the DOM again and nulls the reference. -/
def hideFinalizeTimer (s : DropdownState) : DropdownState :=
  { s with container := none }

/-- Embedding of BangDropdown.selectBang: invokes the onSelectBang callback
when one was supplied (the emitted trigger texts are collected in the second
component) and then hides the dropdown. -/
def selectBang (bangText : String) (s : DropdownState) : DropdownState × List String :=
  (hide s, if s.onSelectBangSet then [bangText] else [])

/-- Embedding of BangDropdown.selectTopOption: selects the first filtered bang
when the list is non-empty, otherwise does nothing. -/
def selectTopOption (s : DropdownState) : DropdownState × List String :=
  match s.filteredBangs with
  | [] => (s, [])
  | bang :: _ => selectBang bang.t s

/-- Embedding of BangDropdown.selectCurrent: with selectedIndex inside the
bounds of filteredBangs the bang at that index is selected; otherwise the
dropdown is only hidden.  The inner fallback arm is unreachable because the
index was just checked against the length. -/
def selectCurrent (s : DropdownState) : DropdownState × List String :=
  if 0 ≤ s.selectedIndex ∧ s.selectedIndex < (s.filteredBangs.length : Int) then
    match s.filteredBangs[s.selectedIndex.toNat]? with
    | some bang => selectBang bang.t s
    | none => (hide s, [])
  else (hide s, [])

/-- Embedding of the tabKeyHandler closure registered on the input element:
on Tab, while visible with a non-empty candidate list, the current selection
(or the top option when nothing is selected) is selected and the dropdown is
hidden afterwards; any other key is ignored. -/
def tabKeyHandler (key : String) (s : DropdownState) : DropdownState × List String :=
  if key = "Tab" ∧ s.isVisible = true ∧ 0 < s.filteredBangs.length then
    let r := if 0 ≤ s.selectedIndex then selectCurrent s else selectTopOption s
    (hide r.1, r.2)
  else (s, [])

/-- Embedding of the documentClickHandler closure: ignored while not visible;
a click that is neither on the dropdown container nor on the input hides the
dropdown (and schedules the recheck timer, modelled by
outsideClickRecheckTimer).  The two booleans say where the click target lies;
containment in the container can only hold when a container exists. -/
def documentClickHandler (targetInDropdown targetOnInput : Bool)
    (s : DropdownState) : DropdownState :=
  if s.isVisible = false then s
  else
    let clickedOnDropdown := s.container.isSome && targetInDropdown
    if clickedOnDropdown = false ∧ targetOnInput = false then hide s else s

/-- Action of the 10ms timer scheduled by the document click handler after
hiding: it hides again in case the dropdown became visible in the meantime. -/
def outsideClickRecheckTimer (s : DropdownState) : DropdownState :=
  if s.isVisible = true then hide s else s

/-- Dispatch of a document click event: the handler body runs only while the
document click listener is attached. -/
def dispatchDocumentClick (targetInDropdown targetOnInput : Bool)
    (s : DropdownState) : DropdownState :=
  if s.docClickAttached = true then documentClickHandler targetInDropdown targetOnInput s
  else s

/-- Dispatch of a keydown event on the input element: the tab key handler runs
only while the keydown listener is attached. -/
def dispatchKeydown (key : String) (s : DropdownState) : DropdownState × List String :=
  if s.tabKeyAttached = true then tabKeyHandler key s else (s, [])

/-- Action of the resize handler: positionDropdown only moves the container
element on screen, so no modelled field changes. -/
def resizeHandlerAction (s : DropdownState) : DropdownState := s

/-- Dispatch of a window resize event: the handler runs only while the resize
listener is attached. -/
def dispatchResize (s : DropdownState) : DropdownState :=
  if s.resizeAttached = true then resizeHandlerAction s else s

/-- Embedding of BangDropdown.ensureContainer: creates an empty container when
none exists, appending it to the DOM; otherwise keeps the existing one. -/
def ensureContainer (s : DropdownState) : DropdownState :=
  match s.container with
  | some _ => s
  | none => { s with container := some ContainerContent.empty }

/-- Message shown by show for an empty query. -/
def promptMessage : String := "Start typing to search for bangs..."

/-- Message shown by renderItems for an empty item list. -/
def noMatchMessage : String := "No matching bangs found"

/-- Embedding of BangDropdown.renderItems: clears the container (which also
resets selectedIndex), then renders either the no-match message or the item
list into it. -/
def renderItems (itemList : List BangItem) (s : DropdownState) : DropdownState :=
  let s1 := { s with container := s.container.map (fun _ => ContainerContent.empty)
                     selectedIndex := -1 }
  match s1.container with
  | none => s1
  | some _ =>
    if itemList.isEmpty then { s1 with container := some (ContainerContent.message noMatchMessage) }
    else { s1 with container := some (ContainerContent.items itemList) }

/-- Embedding of BangDropdown.populate: renders the current filteredBangs when
a container exists. -/
def populate (s : DropdownState) : DropdownState :=
  match s.container with
  | some _ => renderItems s.filteredBangs s
  | none => s

/-- Embedding of BangDropdown.setFilteredBangs: stores the externally filtered
list and re-populates when the dropdown is visible with a container. -/
def setFilteredBangs (l : List BangItem) (s : DropdownState) : DropdownState :=
  let s1 := { s with filteredBangs := l }
  if s1.isVisible = true ∧ s1.container.isSome = true then populate s1 else s1

/-- Lower-casing of an ASCII character.  The source uses toLowerCase; triggers
and the query are compared after lower-casing, and the catalog triggers are
ASCII, so ASCII lowering is the faithful model. -/
def charLower (c : Char) : Char :=
  if 65 ≤ c.toNat ∧ c.toNat ≤ 90 then Char.ofNat (c.toNat + 32) else c

/-- Lower-casing of a string, character by character. -/
def strLower (s : String) : String :=
  String.mk (s.data.map charLower)

/-- Helper used by the modelled match engine: containment of one character
list inside another, the contains relation on lower-cased strings. -/
def listContains (needle : List Char) : List Char → Bool
  | [] => needle.isEmpty
  | c :: cs => needle.isPrefixOf (c :: cs) || listContains needle cs

/-- Lexicographic comparison of character lists, the alphabetical order used
by the ranking tie-breakers. -/
def charListLt : List Char → List Char → Bool
  | [], [] => false
  | [], _ :: _ => true
  | _ :: _, [] => false
  | a :: as, b :: bs => if a < b then true else if b < a then false else charListLt as bs

/-- Insertion of an element into a list sorted by the boolean comparator. -/
def insertSorted (le : BangItem → BangItem → Bool) (b : BangItem) :
    List BangItem → List BangItem
  | [] => [b]
  | a :: as => if le b a then b :: a :: as else a :: insertSorted le b as

/-- Insertion sort by a boolean comparator. -/
def sortBy (le : BangItem → BangItem → Bool) : List BangItem → List BangItem
  | [] => []
  | a :: as => insertSorted le a (sortBy le as)

/-- Comparator of the starts-with tier: ascending trigger length, ties broken
by descending weight, then alphabetically by trigger. -/
def startsWithLe (a b : BangItem) : Bool :=
  if a.t.data.length < b.t.data.length then true
  else if b.t.data.length < a.t.data.length then false
  else if b.w < a.w then true
  else if a.w < b.w then false
  else !(charListLt b.t.data a.t.data)

/-- Comparator of the service-name tier: descending weight, then
alphabetically by trigger. -/
def serviceLe (a b : BangItem) : Bool :=
  if b.w < a.w then true
  else if a.w < b.w then false
  else !(charListLt b.t.data a.t.data)

/-- Modelled from the spec: filterAndSortBangs (src/utils/bangUtils.ts is not
under src/) is the MatchEngine of spec section 4.2, evaluated
case-insensitively: exact trigger matches first, then triggers starting with
the query ordered by ascending length, weight and alphabet, then service names
containing the query ordered by weight and alphabet, truncated to maxItems.
An empty query, and per section 7 a query containing whitespace, yields the
empty result. -/
def filterAndSortBangs (catalog : List BangItem) (query : String) (maxItems : Nat) :
    List BangItem :=
  let q := strLower query
  if q = "" ∨ q.data.any Char.isWhitespace then []
  else
    let exactMatches := catalog.filter (fun b => strLower b.t == q)
    let startsWithMatches :=
      catalog.filter (fun b => q.data.isPrefixOf (strLower b.t).data && !(strLower b.t == q))
    let serviceMatches :=
      catalog.filter
        (fun b => listContains q.data (strLower b.s).data && !(q.data.isPrefixOf (strLower b.t).data))
    (exactMatches ++ sortBy startsWithLe startsWithMatches ++ sortBy serviceLe serviceMatches).take
      maxItems

/-- Embedding of BangDropdown.show: ensures a container; a query containing a
space hides the dropdown and returns; otherwise the dropdown becomes visible,
an empty query only shows the prompt message, and a non-empty query computes
the filtered bangs (via the modelled match engine over the combined catalog
passed in by the caller) and populates the container. -/
def showDropdown (catalog : List BangItem) (query : String) (s : DropdownState) :
    DropdownState :=
  let s1 := ensureContainer s
  if query.data.contains ' ' then hide s1
  else
    let s2 := { s1 with isVisible := true }
    if query = "" then { s2 with container := some (ContainerContent.message promptMessage) }
    else
      let s3 := { s2 with filteredBangs := filterAndSortBangs catalog query s2.maxItems }
      populate s3

/-- Embedding of BangDropdown.dispose: removes the document click and keydown
listeners, hides the dropdown, removes the resize listener, and nulls the
container and the filtered list. -/
def dispose (s : DropdownState) : DropdownState :=
  let s1 := { s with docClickAttached := false, tabKeyAttached := false }
  let s2 := hide s1
  let s3 := { s2 with resizeAttached := false }
  { s3 with container := none, filteredBangs := [] }

/-- Candidate items currently rendered in the container (empty when the
container is absent or shows a message). -/
def visibleItems (s : DropdownState) : List BangItem :=
  match s.container with
  | some (ContainerContent.items l) => l
  | _ => []

/-- Modelled from the spec: the BangSuggestionManager (not under src/) owns
the worker wiring; per sections 4.3 and 5 a worker response that arrives after
disposal is discarded and touches no state, while before disposal it forwards
the result to setFilteredBangs. -/
structure ManagerState where
  dropdown : DropdownState
  disposed : Bool
deriving Repr, DecidableEq

/-- Modelled from the spec: delivery of a worker response to the manager. -/
def managerWorkerResponse (result : List BangItem) (m : ManagerState) : ManagerState :=
  if m.disposed = true then m
  else { m with dropdown := setFilteredBangs result m.dropdown }

/-- Modelled from the spec: disposal of the manager disposes the dropdown and
marks the manager disposed. -/
def managerDispose (m : ManagerState) : ManagerState :=
  { dropdown := dispose m.dropdown, disposed := true }

/-- Modelled from the spec: the Enter key wiring lives in the
BangSuggestionManager (not under src/); per section 4.5 Enter while the
surface is open invokes selectCurrent on the dropdown. -/
def enterKeyDispatch (s : DropdownState) : DropdownState × List String :=
  if s.isVisible = true then selectCurrent s else (s, [])

/-- Index of the last occurrence of a character in a character list, the
lastIndexOf of the search form's bang-selection handler. -/
def lastIdxOf (c : Char) : List Char → Option Nat
  | [] => none
  | a :: as =>
    match lastIdxOf c as with
    | some i => some (i + 1)
    | none => if a = c then some 0 else none

/-- Embedding of SearchForm.handleBangSelection: when the input value contains
a bang character, the text up to and including the last one is kept and the
selected trigger plus a space is appended; otherwise the value is unchanged. -/
def handleBangSelection (inputValue bangText : String) : String :=
  match lastIdxOf '!' inputValue.data with
  | some i => String.mk (inputValue.data.take (i + 1)) ++ bangText ++ " "
  | none => inputValue

/-! Helper lemmas about the dropdown operations. -/

/-- Hiding always leaves no container: either one was removed or none existed. -/
theorem hide_container_eq_none (s : DropdownState) : (hide s).container = none := by
  unfold hide; split <;> simp_all

/-- When a container exists, hide removes it and resets visibility and the
selection index. -/
theorem hide_of_isSome (s : DropdownState) (h : s.container.isSome = true) :
    hide s = { s with container := none, isVisible := false, selectedIndex := -1 } := by
  unfold hide; split <;> simp_all

/-- Hiding never touches the filtered candidate list. -/
theorem hide_filteredBangs (s : DropdownState) : (hide s).filteredBangs = s.filteredBangs := by
  unfold hide; split <;> simp_all

/-- Hiding twice is the same as hiding once. -/
theorem hide_idem (s : DropdownState) : hide (hide s) = hide s := by
  cases h : s.container with
  | none =>
    have h1 : hide s = s := by unfold hide; rw [h]
    rw [h1, h1]
  | some c =>
    rw [hide_of_isSome s (by rw [h]; rfl)]
    rfl

/-- The container exists after ensureContainer. -/
theorem ensureContainer_isSome (s : DropdownState) :
    (ensureContainer s).container.isSome = true := by
  unfold ensureContainer; split <;> simp_all

/-- ensureContainer changes no field other than the container. -/
theorem ensureContainer_fields (s : DropdownState) :
    (ensureContainer s).isVisible = s.isVisible ∧
    (ensureContainer s).selectedIndex = s.selectedIndex ∧
    (ensureContainer s).filteredBangs = s.filteredBangs ∧
    (ensureContainer s).maxItems = s.maxItems := by
  unfold ensureContainer; split <;> simp_all

/-- Concrete open session used to exercise the hide transition: the surface is
open on the single candidate with trigger g, which is also selected. -/
def c1OpenState : DropdownState :=
  { container := some (ContainerContent.items [{ t := "g", s := "Google", u := "url", w := 5 }])
    isVisible := true
    selectedIndex := 0
    filteredBangs := [{ t := "g", s := "Google", u := "url", w := 5 }]
    docClickAttached := true
    tabKeyAttached := true
    resizeAttached := false
    maxItems := 25
    onSelectBangSet := true }

/-- C1 counterexample: hide() does reset isVisible, selectedIndex and the
container, but the candidate list (the candidates component of the
SuggestionSession) is not cleared; it survives the transition through Closed
into the next opening (showDropdown with the empty query does not recompute
it) and is observable there: Tab emits a selection from the stale list.  So
the claim that no session state survives a transition through Closed is false
at this state. -/
theorem c1_session_survives_counterexample :
    (hide c1OpenState).isVisible = false ∧
    (hide c1OpenState).selectedIndex = -1 ∧
    (hide c1OpenState).container = none ∧
    (hide c1OpenState).filteredBangs ≠ [] ∧
    (showDropdown [] "" (hide c1OpenState)).filteredBangs ≠ [] ∧
    (dispatchKeydown "Tab" (showDropdown [] "" (hide c1OpenState))).2 = ["g"] := by
  decide

/-- C1 (amended): whenever the suggestion surface is closed through hide()
while a container exists (which holds on every close path: selection, outside
click, explicit dismissal), the visibility flag, the selection index and the
container are reset; the filtered candidate list, however, is not cleared by
hide() and can survive into the next opening until a non-empty query
recomputes it. -/
theorem c1_hide_resets (s : DropdownState) (h : s.container.isSome = true) :
    (hide s).isVisible = false ∧
    (hide s).selectedIndex = -1 ∧
    (hide s).container = none := by
  rw [hide_of_isSome s h]; exact ⟨rfl, rfl, rfl⟩

/-- Witness for the amended C1 theorem at the concrete open session. -/
theorem c1_hide_resets_witness :
    (hide c1OpenState).isVisible = false ∧
    (hide c1OpenState).selectedIndex = -1 ∧
    (hide c1OpenState).container = none :=
  c1_hide_resets c1OpenState (by decide)

/-- Freshly constructed dropdown used by the C6 theorems. -/
def c6Init : DropdownState := init false 25 true

/-- C6 counterexample: the source checks only for the space character, not for
whitespace in general.  The string with a tab contains whitespace, yet
showDropdown leaves the surface open (and the match step runs on the query)
instead of hiding it. -/
theorem c6_whitespace_counterexample :
    ('\t' ∈ "a\tb".data ∧ '\t'.isWhitespace = true) ∧
    (showDropdown [] "a\tb" c6Init).isVisible = true ∧
    (showDropdown [] "a\tb" c6Init).container ≠ none := by
  decide

/-- C6 (amended): for every query containing a space character (the character
the source tests for), showDropdown hides the surface and returns without
computing candidates; the call is total, so the contract violation is
non-fatal.  Other whitespace characters are not treated specially. -/
theorem c6_space_hides (catalog : List BangItem) (query : String) (s : DropdownState)
    (h : query.data.contains ' ' = true) :
    (showDropdown catalog query s).isVisible = false ∧
    (showDropdown catalog query s).container = none ∧
    (showDropdown catalog query s).filteredBangs = s.filteredBangs := by
  unfold showDropdown
  simp only [h, if_true]
  rw [hide_of_isSome _ (ensureContainer_isSome s)]
  exact ⟨rfl, rfl, (ensureContainer_fields s).2.2.1⟩

/-- Witness for the C6 amended theorem at a concrete query with a space. -/
theorem c6_space_hides_witness :
    (showDropdown [] "a b" c6Init).isVisible = false ∧
    (showDropdown [] "a b" c6Init).container = none ∧
    (showDropdown [] "a b" c6Init).filteredBangs = c6Init.filteredBangs :=
  c6_space_hides [] "a b" c6Init (by decide)

/-- C7: showing the dropdown with the empty query displays the prompt message
instead of a candidate listing: the container holds the prompt text, no
candidate items are rendered, and no candidate list is computed (the stored
candidates are untouched). -/
theorem c7_empty_query_prompt (catalog : List BangItem) (s : DropdownState) :
    (showDropdown catalog "" s).container = some (ContainerContent.message promptMessage) ∧
    visibleItems (showDropdown catalog "" s) = [] ∧
    (showDropdown catalog "" s).isVisible = true ∧
    (showDropdown catalog "" s).filteredBangs = s.filteredBangs := by
  unfold showDropdown
  have hsp : ("" : String).data.contains ' ' = false := rfl
  simp only [hsp, Bool.false_eq_true, if_false, if_pos rfl]
  refine ⟨rfl, rfl, rfl, ?_⟩
  exact (ensureContainer_fields s).2.2.1

/-- C2: after disposal no asynchronous callback touches the state.  A worker
response delivered to a disposed manager is discarded; the hide finalisation
timer and the outside-click recheck timer leave the disposed state unchanged
when they fire; the document click, keydown and resize listeners are detached,
so dispatching those events changes nothing and emits nothing. -/
theorem c2_dispose_quiesces (s : DropdownState) (m : ManagerState) :
    (∀ result, managerWorkerResponse result (managerDispose m) = managerDispose m) ∧
    hideFinalizeTimer (dispose s) = dispose s ∧
    outsideClickRecheckTimer (dispose s) = dispose s ∧
    (∀ a b, dispatchDocumentClick a b (dispose s) = dispose s) ∧
    (∀ key, dispatchKeydown key (dispose s) = (dispose s, [])) ∧
    dispatchResize (dispose s) = dispose s := by
  obtain ⟨cont, vis, sel, fb, dc, tk, rz, mi, osb⟩ := s
  refine ⟨?_, ?_, ?_, ?_, ?_, ?_⟩
  · intro result
    obtain ⟨d, dis⟩ := m
    simp [managerDispose, managerWorkerResponse]
  · cases cont <;> rfl
  · cases cont <;> cases vis <;> rfl
  · intro a b; cases cont <;> rfl
  · intro key; cases cont <;> rfl
  · cases cont <;> rfl

/-- C3: disposal is idempotent and quiescing.  Disposing twice equals
disposing once (and, the model being total, neither call can throw); the
disposed state is Closed: no container, not visible, empty candidate list;
all three listeners are detached and firing any of them changes no state.
The visibility hypothesis is the component's invariant that a visible
dropdown has a container (visibility is only ever set right after the
container is created). -/
theorem c3_dispose_idempotent (s : DropdownState)
    (hinv : s.isVisible = true → s.container.isSome = true) :
    dispose (dispose s) = dispose s ∧
    (dispose s).container = none ∧
    (dispose s).isVisible = false ∧
    (dispose s).filteredBangs = [] ∧
    (dispose s).docClickAttached = false ∧
    (dispose s).tabKeyAttached = false ∧
    (dispose s).resizeAttached = false ∧
    (∀ a b, dispatchDocumentClick a b (dispose s) = dispose s) ∧
    (∀ key, dispatchKeydown key (dispose s) = (dispose s, [])) ∧
    dispatchResize (dispose s) = dispose s := by
  obtain ⟨cont, vis, sel, fb, dc, tk, rz, mi, osb⟩ := s
  cases cont with
  | some c =>
    exact ⟨rfl, rfl, rfl, rfl, rfl, rfl, rfl, fun a b => rfl, fun key => rfl, rfl⟩
  | none =>
    cases vis with
    | true => exact absurd (hinv rfl) (by simp)
    | false =>
      exact ⟨rfl, rfl, rfl, rfl, rfl, rfl, rfl, fun a b => rfl, fun key => rfl, rfl⟩

/-- Concrete open session used by the C3 witness. -/
def c3State : DropdownState :=
  { container := some ContainerContent.empty
    isVisible := true
    selectedIndex := 2
    filteredBangs := [{ t := "w", s := "Wikipedia", u := "url", w := 3 }]
    docClickAttached := true
    tabKeyAttached := true
    resizeAttached := true
    maxItems := 25
    onSelectBangSet := true }

/-- Witness for C3 at a concrete open session. -/
theorem c3_dispose_idempotent_witness :
    dispose (dispose c3State) = dispose c3State ∧
    (dispose c3State).container = none ∧
    (dispose c3State).isVisible = false ∧
    (dispose c3State).filteredBangs = [] ∧
    dispatchKeydown "Tab" (dispose c3State) = (dispose c3State, []) ∧
    dispatchDocumentClick false false (dispose c3State) = dispose c3State :=
  ⟨(c3_dispose_idempotent c3State (by decide)).1,
   (c3_dispose_idempotent c3State (by decide)).2.1,
   (c3_dispose_idempotent c3State (by decide)).2.2.1,
   (c3_dispose_idempotent c3State (by decide)).2.2.2.1,
   (c3_dispose_idempotent c3State (by decide)).2.2.2.2.2.2.2.2.1 "Tab",
   (c3_dispose_idempotent c3State (by decide)).2.2.2.2.2.2.2.1 false false⟩

/-- C4: on a visible surface with candidates and no selection, Tab emits the
selection event with the top-ranked candidate's trigger and then closes the
surface. -/
theorem c4_tab_selects_top (s : DropdownState) (b : BangItem) (l : List BangItem)
    (hvis : s.isVisible = true) (hcont : s.container.isSome = true)
    (htab : s.tabKeyAttached = true) (hsel : s.selectedIndex < 0)
    (hlist : s.filteredBangs = b :: l) (hcb : s.onSelectBangSet = true) :
    (dispatchKeydown "Tab" s).2 = [b.t] ∧
    (dispatchKeydown "Tab" s).1.isVisible = false ∧
    (dispatchKeydown "Tab" s).1.container = none := by
  have hlen : 0 < s.filteredBangs.length := by rw [hlist]; simp
  have hst : selectTopOption s = (hide s, [b.t]) := by
    unfold selectTopOption
    rw [hlist]
    simp [selectBang, hcb]
  have hkey : dispatchKeydown "Tab" s = (hide (hide s), [b.t]) := by
    unfold dispatchKeydown tabKeyHandler
    rw [if_pos htab, if_pos ⟨rfl, hvis, hlen⟩]
    simp only [if_neg (show ¬ (0 ≤ s.selectedIndex) by omega), hst]
  rw [hkey]
  refine ⟨rfl, ?_, hide_container_eq_none _⟩
  rw [hide_idem, hide_of_isSome s hcont]

/-- Concrete state used by the C4 witness: visible, two candidates, nothing
selected. -/
def c4State : DropdownState :=
  { container := some ContainerContent.empty
    isVisible := true
    selectedIndex := -1
    filteredBangs :=
      [{ t := "g", s := "Google", u := "url", w := 5 },
       { t := "gi", s := "Google Images", u := "url", w := 4 }]
    docClickAttached := true
    tabKeyAttached := true
    resizeAttached := false
    maxItems := 25
    onSelectBangSet := true }

/-- Witness for C4 at the concrete state: Tab emits the top candidate g. -/
theorem c4_tab_selects_top_witness :
    (dispatchKeydown "Tab" c4State).2 = ["g"] ∧
    (dispatchKeydown "Tab" c4State).1.isVisible = false ∧
    (dispatchKeydown "Tab" c4State).1.container = none :=
  c4_tab_selects_top c4State
    { t := "g", s := "Google", u := "url", w := 5 }
    [{ t := "gi", s := "Google Images", u := "url", w := 4 }]
    (by decide) (by decide) (by decide) (by decide) (by decide) (by decide)

/-- C5: on a visible surface with a valid selection, Tab (through the source's
tab key handler) and Enter (through the spec-modelled Enter wiring, which
invokes selectCurrent) emit the selection event carrying exactly the trigger
of the candidate at selectedIndex and close the surface. -/
theorem c5_select_current (s : DropdownState) (b : BangItem)
    (hvis : s.isVisible = true) (hcont : s.container.isSome = true)
    (htab : s.tabKeyAttached = true) (hcb : s.onSelectBangSet = true)
    (hidx : 0 ≤ s.selectedIndex)
    (hget : s.filteredBangs[s.selectedIndex.toNat]? = some b) :
    (dispatchKeydown "Tab" s).2 = [b.t] ∧
    (dispatchKeydown "Tab" s).1.isVisible = false ∧
    (dispatchKeydown "Tab" s).1.container = none ∧
    (enterKeyDispatch s).2 = [b.t] ∧
    (enterKeyDispatch s).1.isVisible = false ∧
    (enterKeyDispatch s).1.container = none := by
  obtain ⟨hlt, -⟩ := List.getElem?_eq_some.mp hget
  have hlen : 0 < s.filteredBangs.length := Nat.lt_of_le_of_lt (Nat.zero_le _) hlt
  have hsc : selectCurrent s = (hide s, [b.t]) := by
    unfold selectCurrent
    rw [if_pos ⟨hidx, by omega⟩, hget]
    simp [selectBang, hcb]
  have hvis2 : (hide s).isVisible = false := by rw [hide_of_isSome s hcont]
  have hkey : dispatchKeydown "Tab" s = (hide (hide s), [b.t]) := by
    unfold dispatchKeydown tabKeyHandler
    rw [if_pos htab, if_pos ⟨rfl, hvis, hlen⟩]
    simp only [if_pos hidx, hsc]
  have hent : enterKeyDispatch s = (hide s, [b.t]) := by
    unfold enterKeyDispatch
    rw [if_pos hvis, hsc]
  rw [hkey, hent]
  refine ⟨rfl, ?_, hide_container_eq_none _, rfl, hvis2, hide_container_eq_none _⟩
  rw [hide_idem, hide_of_isSome s hcont]

/-- Concrete state used by the C5 witness: the second candidate is selected. -/
def c5State : DropdownState :=
  { container := some ContainerContent.empty
    isVisible := true
    selectedIndex := 1
    filteredBangs :=
      [{ t := "g", s := "Google", u := "url", w := 5 },
       { t := "gi", s := "Google Images", u := "url", w := 4 }]
    docClickAttached := true
    tabKeyAttached := true
    resizeAttached := false
    maxItems := 25
    onSelectBangSet := true }

/-- Witness for C5 at the concrete state: Tab and Enter emit gi, the trigger
of the candidate at index 1. -/
theorem c5_select_current_witness :
    (dispatchKeydown "Tab" c5State).2 = ["gi"] ∧
    (enterKeyDispatch c5State).2 = ["gi"] ∧
    (enterKeyDispatch c5State).1.isVisible = false :=
  ⟨(c5_select_current c5State { t := "gi", s := "Google Images", u := "url", w := 4 }
      (by decide) (by decide) (by decide) (by decide) (by decide) (by decide)).1,
   (c5_select_current c5State { t := "gi", s := "Google Images", u := "url", w := 4 }
      (by decide) (by decide) (by decide) (by decide) (by decide) (by decide)).2.2.2.1,
   (c5_select_current c5State { t := "gi", s := "Google Images", u := "url", w := 4 }
      (by decide) (by decide) (by decide) (by decide) (by decide) (by decide)).2.2.2.2.1⟩

/-- C9: selection emission is bounds-guarded.  With selectedIndex outside the
bounds of the candidate list, selectCurrent emits nothing and still closes the
surface (it reduces to hide, leaving no container); selectTopOption on an
empty candidate list emits nothing and changes nothing.  Both functions are
total, so no out-of-bounds access occurs. -/
theorem c9_selection_guard (s : DropdownState) :
    (¬ (0 ≤ s.selectedIndex ∧ s.selectedIndex < (s.filteredBangs.length : Int)) →
      selectCurrent s = (hide s, []) ∧ (selectCurrent s).1.container = none) ∧
    (s.filteredBangs = [] → selectTopOption s = (s, [])) := by
  constructor
  · intro h
    unfold selectCurrent
    rw [if_neg h]
    exact ⟨rfl, hide_container_eq_none s⟩
  · intro h
    unfold selectTopOption
    rw [h]

/-- Concrete state used by the C9 witness: empty candidate list and the
no-selection index. -/
def c9State : DropdownState := init false 25 true

/-- Witness for C9 at the concrete state. -/
theorem c9_selection_guard_witness :
    (selectCurrent c9State = (hide c9State, []) ∧ (selectCurrent c9State).1.container = none) ∧
    selectTopOption c9State = (c9State, []) :=
  ⟨(c9_selection_guard c9State).1 (by decide), (c9_selection_guard c9State).2 (by decide)⟩

/-- Membership is preserved by sorted insertion. -/
theorem mem_insertSorted {le : BangItem → BangItem → Bool} {b x : BangItem}
    {l : List BangItem} : x ∈ insertSorted le b l ↔ x = b ∨ x ∈ l := by
  induction l with
  | nil => simp [insertSorted]
  | cons a as ih =>
    unfold insertSorted
    split
    · simp [List.mem_cons]
    · simp only [List.mem_cons, ih]
      tauto

/-- Membership is preserved by the insertion sort. -/
theorem mem_sortBy {le : BangItem → BangItem → Bool} {l : List BangItem} {x : BangItem} :
    x ∈ sortBy le l ↔ x ∈ l := by
  induction l with
  | nil => simp [sortBy]
  | cons a as ih => simp [sortBy, mem_insertSorted, ih]

/-- C8: the modelled match engine caps its result at maxItems, and every item
it returns comes from the catalog and either has a trigger equal to the query,
a trigger starting with the query, or a service name containing the query,
all compared lower-cased. -/
theorem c8_match_capped_and_sound (catalog : List BangItem) (query : String)
    (maxItems : Nat) :
    (filterAndSortBangs catalog query maxItems).length ≤ maxItems ∧
    ∀ b ∈ filterAndSortBangs catalog query maxItems,
      b ∈ catalog ∧
        (strLower b.t = strLower query ∨
         ((strLower query).data.isPrefixOf (strLower b.t).data) = true ∨
         listContains (strLower query).data (strLower b.s).data = true) := by
  simp only [filterAndSortBangs]
  split
  · simp
  · constructor
    · rw [List.length_take]
      exact min_le_left _ _
    · intro b hb
      have hb2 := List.take_subset _ _ hb
      rw [List.mem_append, List.mem_append] at hb2
      rcases hb2 with (h | h) | h
      · obtain ⟨hmem, hp⟩ := List.mem_filter.mp h
        exact ⟨hmem, Or.inl (by simpa using hp)⟩
      · obtain ⟨hmem, hp⟩ := List.mem_filter.mp (mem_sortBy.mp h)
        rw [Bool.and_eq_true] at hp
        exact ⟨hmem, Or.inr (Or.inl hp.1)⟩
      · obtain ⟨hmem, hp⟩ := List.mem_filter.mp (mem_sortBy.mp h)
        rw [Bool.and_eq_true] at hp
        exact ⟨hmem, Or.inr (Or.inr hp.1)⟩

/-- Concrete catalog entry used by the C8 witness. -/
def c8Bang : BangItem := { t := "g", s := "Google", u := "url", w := 5 }

/-- Witness for C8 at a concrete catalog and query. -/
theorem c8_match_capped_and_sound_witness :
    (filterAndSortBangs [c8Bang] "g" 25).length ≤ 25 ∧
    (c8Bang ∈ [c8Bang] ∧
      (strLower c8Bang.t = strLower "g" ∨
       ((strLower "g").data.isPrefixOf (strLower c8Bang.t).data) = true ∨
       listContains (strLower "g").data (strLower c8Bang.s).data = true)) :=
  ⟨(c8_match_capped_and_sound [c8Bang] "g" 25).1,
   (c8_match_capped_and_sound [c8Bang] "g" 25).2 c8Bang (by decide)⟩

/-- A character absent from a list has no last index in it. -/
theorem lastIdxOf_none_of_not_mem {c : Char} {l : List Char} (h : c ∉ l) :
    lastIdxOf c l = none := by
  induction l with
  | nil => rfl
  | cons a as ih =>
    have hne : ¬ (a = c) := fun he => h (List.mem_cons.mpr (Or.inl he.symm))
    unfold lastIdxOf
    rw [ih (fun hm => h (List.mem_cons_of_mem a hm)), if_neg hne]

/-- The last index of a character that occurs once after an occurrence-free
tail is the position right before that tail. -/
theorem lastIdxOf_append {c : Char} (p q : List Char) (hq : c ∉ q) :
    lastIdxOf c (p ++ c :: q) = some p.length := by
  induction p with
  | nil =>
    show lastIdxOf c (c :: q) = some 0
    unfold lastIdxOf
    rw [lastIdxOf_none_of_not_mem hq]
    simp
  | cons a as ih =>
    show lastIdxOf c (a :: (as ++ c :: q)) = some (as.length + 1)
    unfold lastIdxOf
    rw [ih]

/-- C10: the bang-selection handler rewrites the input only when it contains
the bang character: the result is the original text up to and including the
last bang character, followed by the selected trigger and a single space;
an input without a bang character is left unchanged. -/
theorem c10_bang_selection (v t : String) :
    (('!' ∉ v.data) → handleBangSelection v t = v) ∧
    (∀ p q, v.data = p ++ '!' :: q → ('!' ∉ q) →
      handleBangSelection v t = String.mk (p ++ ['!']) ++ t ++ " ") := by
  constructor
  · intro h
    unfold handleBangSelection
    rw [lastIdxOf_none_of_not_mem h]
  · intro p q hpq hq
    unfold handleBangSelection
    rw [hpq, lastIdxOf_append p q hq]
    have htake : (p ++ '!' :: q).take (p.length + 1) = p ++ ['!'] := by
      rw [List.take_append_eq_append_take]
      have h1 : p.take (p.length + 1) = p := List.take_of_length_le (by omega)
      have h2 : p.length + 1 - p.length = 1 := by omega
      rw [h1, h2]
      simp
    show String.mk ((p ++ '!' :: q).take (p.length + 1)) ++ t ++ " " =
      String.mk (p ++ ['!']) ++ t ++ " "
    rw [htake]

/-- Witness for C10: a concrete input with a bang is rewritten after its last
bang character, and a concrete input without one is unchanged. -/
theorem c10_bang_selection_witness :
    handleBangSelection "a!b" "g" = "a!g " ∧ handleBangSelection "xyz" "g" = "xyz" :=
  ⟨by
    rw [(c10_bang_selection "a!b" "g").2 ['a'] ['b'] (by decide) (by decide)]
    decide,
   (c10_bang_selection "xyz" "g").1 (by decide)⟩

end Rebang
